import Mathlib

/-!
# Verification of the drift call-graph / reachability core

Shallow embedding of the `drift` repository's napi binding layer
(`crates/drift-napi/src/lib.rs`) and parser support types
(`crates/drift-core/src/parsers/types.rs`, `python.rs`), together with
spec-modelled stand-ins for the drift-core components whose sources are
not part of the repository snapshot (the reachability engines, the
SQLite graph store and the parser manager).  Machine integers are
modelled as `Nat`/`Int`; floating-point confidence values and wall-clock
durations are not modelled (no verified property depends on them).
-/

namespace Drift

/-! ## Character-level string splitting

Rust's `str::split(c)` / `str::rsplit(c)` iterate over the substrings
separated by the (ASCII) character `c`.  We model a `String` as its
character list and `split` by the following function; `rsplit` is the
reverse of `split`. -/

/-- Model of Rust `s.split(c)`: splits a character list at every
occurrence of `c`, keeping empty segments (as Rust does). -/
def splitOnChar (c : Char) : List Char → List (List Char)
  | [] => [[]]
  | x :: xs =>
    if x = c then
      [] :: splitOnChar c xs
    else
      match splitOnChar c xs with
      | [] => [[x]]
      | p :: ps => (x :: p) :: ps

theorem splitOnChar_ne_nil (c : Char) (l : List Char) : splitOnChar c l ≠ [] := by
  cases l with
  | nil => simp [splitOnChar]
  | cons x xs =>
    simp only [splitOnChar]
    split
    · simp
    · split
      · simp
      · simp

/-- A segment free of the separator splits into itself alone. -/
theorem splitOnChar_of_not_mem {c : Char} {l : List Char} (h : c ∉ l) :
    splitOnChar c l = [l] := by
  induction l with
  | nil => rfl
  | cons x xs ih =>
    have hx : ¬ x = c := by
      intro hx
      exact h (by rw [← hx]; exact List.mem_cons_self x xs)
    have hxs : c ∉ xs := fun hm => h (List.mem_cons_of_mem _ hm)
    simp only [splitOnChar, if_neg hx, ih hxs]

/-- Splitting a list that starts with a separator-free prefix followed by
the separator peels off that prefix as the first segment. -/
theorem splitOnChar_append_cons {c : Char} {xs : List Char} (h : c ∉ xs)
    (ys : List Char) : splitOnChar c (xs ++ c :: ys) = xs :: splitOnChar c ys := by
  induction xs with
  | nil => simp [splitOnChar]
  | cons x xs ih =>
    have hx : ¬ x = c := by
      intro hx
      exact h (by rw [← hx]; exact List.mem_cons_self x xs)
    have hxs : c ∉ xs := fun hm => h (List.mem_cons_of_mem _ hm)
    simp only [List.cons_append, splitOnChar, if_neg hx, List.append_eq, ih hxs]

/-! ## Supported languages (`parsers/types.rs`)

`Language` and its extension dispatch are translated from
`crates/drift-core/src/parsers/types.rs` lines 8–44. -/

/-- The ten supported languages (`enum Language`). -/
inductive Language where
  | typeScript
  | javaScript
  | python
  | java
  | cSharp
  | php
  | go
  | rust
  | cpp
  | c
deriving DecidableEq, Repr

namespace Language

/-- Rust `str::to_lowercase`, modelled per character (the extensions
compared against are ASCII). -/
def toLowercase (s : String) : String :=
  String.mk (s.data.map Char.toLower)

/-- `Language::from_extension`: case-insensitive match of the extension
against the supported table (`types.rs` lines 23–37). -/
def from_extension (ext : String) : Option Language :=
  match toLowercase ext with
  | "ts" | "tsx" | "mts" | "cts" => some .typeScript
  | "js" | "jsx" | "mjs" | "cjs" => some .javaScript
  | "py" | "pyi" => some .python
  | "java" => some .java
  | "cs" => some .cSharp
  | "php" => some .php
  | "go" => some .go
  | "rs" => some .rust
  | "cpp" | "cc" | "cxx" | "hpp" | "hh" | "hxx" => some .cpp
  | "c" | "h" => some .c
  | _ => none

/-- `Language::from_path` (`types.rs` lines 40–43):
`path.rsplit('.').next()` is the last `split('.')` segment — note that a
path without any `'.'` yields the whole path as that segment. -/
def from_path (path : String) : Option Language :=
  match (splitOnChar '.' path.data).reverse with
  | [] => none
  | ext :: _ => from_extension (String.mk ext)

end Language

/-! ## Data-access operations

`drift_core::reachability::DataOperation` has exactly the variants
`Read`, `Write`, `Delete`: the exhaustive, wildcard-free `match` in the
binding's result conversion (`drift-napi/src/lib.rs` lines 1066–1070)
fixes the variant set. -/

/-- The data-access operation domain. -/
inductive ReachDataOperation where
  | read
  | write
  | delete
deriving DecidableEq, Repr

/-- Operation-string parsing used when converting a JS-supplied call
graph (`drift-napi/src/lib.rs` lines 1016–1020 and 1129–1133): `"write"`
and `"delete"` are recognised, everything else falls to `Read`. -/
def parseOperation (s : String) : ReachDataOperation :=
  match s with
  | "write" => .write
  | "delete" => .delete
  | _ => .read

/-- Operation serialization used in every result conversion
(`drift-napi/src/lib.rs` lines 1066–1070, 1181–1185, 1241–1245,
1327–1331). -/
def operationToString : ReachDataOperation → String
  | .read => "read"
  | .write => "write"
  | .delete => "delete"

/-! ## Reachability data model

JS-side structures are translated from the `#[napi(object)]` structs of
`drift-napi/src/lib.rs`; core structures from the
`drift_core::reachability` types as they are used by the binding.
`i64` / `u32` are modelled as `Int` / `Nat`; the `as u32` cast wraps
modulo `2^32`.  `f64`/`f32` confidence values are omitted (floating
point is outside the embedding; no verified property touches them). -/

/-- Rust `i as u32` on an `i64` value. -/
def i64ToU32 (i : Int) : Nat := (i % (2 ^ 32 : Int)).toNat

/-- `JsCallGraphCallSite` (`lib.rs` 964–969). -/
structure JsCallGraphCallSite where
  callee_name : String
  resolved : Bool
  resolved_candidates : List String
  line : Int
deriving DecidableEq, Repr

/-- `JsCallGraphDataAccess` (`lib.rs` 973–981, confidence omitted). -/
structure JsCallGraphDataAccess where
  table : String
  operation : String
  fields : List String
  file : String
  line : Int
  framework : Option String
deriving DecidableEq, Repr

/-- `JsCallGraphFunction` (`lib.rs` 950–960). -/
structure JsCallGraphFunction where
  id : String
  name : String
  qualified_name : String
  file : String
  start_line : Int
  end_line : Int
  calls : List JsCallGraphCallSite
  data_access : List JsCallGraphDataAccess
  is_entry_point : Bool
deriving DecidableEq, Repr

/-- `JsCallGraphInput` (`lib.rs` 985–989). -/
structure JsCallGraphInput where
  functions : List JsCallGraphFunction
  entry_points : List String
  data_accessors : List String
deriving DecidableEq, Repr

/-- `JsReachabilityOptions` (`lib.rs` 919–924): every option field is
optional on the JS side. -/
structure JsReachabilityOptions where
  max_depth : Option Int
  sensitive_only : Option Bool
  tables : Option (List String)
  include_unresolved : Option Bool
deriving DecidableEq, Repr

/-- `drift_core::reachability::CallSite` (imported by the binding as
`ReachCallSite`), as populated in `lib.rs` 1006–1011. -/
structure ReachCallSite where
  callee_name : String
  resolved : Bool
  resolved_candidates : List String
  line : Nat
deriving DecidableEq, Repr

/-- `drift_core::reachability::DataAccessPoint` as populated in
`lib.rs` 1013–1027 (confidence omitted). -/
structure DataAccessPoint where
  table : String
  operation : ReachDataOperation
  fields : List String
  file : String
  line : Nat
  framework : Option String
deriving DecidableEq, Repr

/-- `drift_core::reachability::FunctionNode` as populated in
`lib.rs` 1029–1039. -/
structure FunctionNode where
  id : String
  name : String
  qualified_name : String
  file : String
  start_line : Nat
  end_line : Nat
  calls : List ReachCallSite
  data_access : List DataAccessPoint
  is_entry_point : Bool
deriving DecidableEq, Repr

/-- `drift_core::reachability::CallGraph`: `functions` is a
`HashMap<String, FunctionNode>`, modelled as an association list whose
`insert` replaces an existing binding. -/
structure CallGraph where
  functions : List (String × FunctionNode)
  entry_points : List String
  data_accessors : List String
deriving DecidableEq, Repr

/-- `HashMap::insert`: replaces any existing binding for the key. -/
def hashMapInsert (m : List (String × FunctionNode)) (k : String)
    (v : FunctionNode) : List (String × FunctionNode) :=
  (k, v) :: m.filter (fun p => p.1 ≠ k)

/-- `HashMap::get` for the association-list model. -/
def CallGraph.find? (g : CallGraph) (id : String) : Option FunctionNode :=
  g.functions.lookup id

/-- `drift_core::reachability::ReachabilityOptions` as populated by the
binding (`lib.rs` 1047–1052 and 1222–1227). -/
structure ReachabilityOptions where
  max_depth : Option Nat
  sensitive_only : Bool
  tables : List String
  include_unresolved : Bool
deriving DecidableEq, Repr

/-- `drift_core::reachability::InverseReachabilityOptions` as populated
by the binding (`lib.rs` 1160–1164 and 1306–1310). -/
structure InverseReachabilityOptions where
  table : String
  field : Option String
  max_depth : Option Nat
deriving DecidableEq, Repr

/-- Conversion of one JS call site (`lib.rs` 1006–1011, also repeated
verbatim at 1119–1124). -/
def convertCallSite (c : JsCallGraphCallSite) : ReachCallSite :=
  { callee_name := c.callee_name
    resolved := c.resolved
    resolved_candidates := c.resolved_candidates
    line := i64ToU32 c.line }

/-- Conversion of one JS data-access point (`lib.rs` 1013–1027, also
repeated verbatim at 1126–1140): the operation string is parsed with
`"write"`/`"delete"` recognised and a wildcard arm mapping everything
else to `Read`. -/
def convertDataAccess (a : JsCallGraphDataAccess) : DataAccessPoint :=
  { table := a.table
    operation := parseOperation a.operation
    fields := a.fields
    file := a.file
    line := i64ToU32 a.line
    framework := a.framework }

/-- Conversion of one JS function node (`lib.rs` 1029–1039). -/
def convertFunction (f : JsCallGraphFunction) : FunctionNode :=
  { id := f.id
    name := f.name
    qualified_name := f.qualified_name
    file := f.file
    start_line := i64ToU32 f.start_line
    end_line := i64ToU32 f.end_line
    calls := f.calls.map convertCallSite
    data_access := f.data_access.map convertDataAccess
    is_entry_point := f.is_entry_point }

/-- The graph-conversion loop shared by `analyze_reachability`
(`lib.rs` 1002–1043) and `analyze_inverse_reachability`
(`lib.rs` 1115–1156): each JS function is inserted into the map keyed
by its `id`; the entry-point and data-accessor indices are copied. -/
def convertGraphInput (inp : JsCallGraphInput) : CallGraph :=
  { functions :=
      inp.functions.foldl
        (fun m f => hashMapInsert m f.id (convertFunction f)) []
    entry_points := inp.entry_points
    data_accessors := inp.data_accessors }

/-- Option conversion in `analyze_reachability` (`lib.rs` 1047–1052):
omitted fields default to `false` / empty / absent. -/
def toRustOptionsMem (o : JsReachabilityOptions) : ReachabilityOptions :=
  { max_depth := o.max_depth.map i64ToU32
    sensitive_only := o.sensitive_only.getD false
    tables := o.tables.getD []
    include_unresolved := o.include_unresolved.getD false }

/-- Option conversion in `analyze_reachability_sqlite`
(`lib.rs` 1222–1227), textually identical to the in-memory one. -/
def toRustOptionsSqlite (o : JsReachabilityOptions) : ReachabilityOptions :=
  { max_depth := o.max_depth.map i64ToU32
    sensitive_only := o.sensitive_only.getD false
    tables := o.tables.getD []
    include_unresolved := o.include_unresolved.getD false }

/-! ## Forward reachability engine (spec-modelled)

The `drift_core::reachability` engine sources are not part of the
repository snapshot; the engine is modelled from spec §4.2. -/

/-- `PathNode = { function_id, function_name, file, line }` (spec §3). -/
structure PathNode where
  function_id : String
  function_name : String
  file : String
  line : Nat
deriving DecidableEq, Repr

/-- Origin location of a forward result, as consumed by the binding
(`lib.rs` 1058–1063). -/
structure CodeLocation where
  file : String
  line : Nat
  column : Option Nat
  function_id : Option String
deriving DecidableEq, Repr

/-- One reachable access: the access point, the discovery path and the
discovery depth (spec §3, consumed in `lib.rs` 1064–1083). -/
structure ReachableAccess where
  access : DataAccessPoint
  path : List PathNode
  depth : Nat
deriving DecidableEq, Repr

/-- Sensitivity classes of the upstream classifier (spec §3/§4.2:
`Unknown` plus PII, credentials, financial, health). -/
inductive SensitivityType where
  | pii
  | credentials
  | financial
  | health
  | unknown
deriving DecidableEq, Repr

/-- A sensitive field record, as consumed in `lib.rs` 1085–1091
(confidence omitted). -/
structure SensitiveField where
  field : String
  table : Option String
  sensitivity_type : SensitivityType
  file : String
  line : Nat
deriving DecidableEq, Repr

/-- Aggregated sensitive-field access (spec §3, `lib.rs` 1085–1101). -/
structure SensitiveFieldAccess where
  field : SensitiveField
  paths : List (List PathNode)
  access_count : Nat
deriving DecidableEq, Repr

/-- The forward result (`ForwardResult` of spec §3), as consumed by the
binding (`lib.rs` 1057–1104). -/
structure ForwardResult where
  origin : CodeLocation
  reachable_access : List ReachableAccess
  tables : List String
  sensitive_fields : List SensitiveFieldAccess
  max_depth : Nat
  functions_traversed : Nat
deriving DecidableEq, Repr

/-- Modelled from the spec: fuel bound for the breadth-first traversal.
Every function is visited at most once and enqueues at most its
resolved-candidate count, so this bound dominates the iteration count. -/
def bfsFuel (g : CallGraph) : Nat :=
  1 + g.functions.foldl
    (fun n p =>
      n + 1 + p.2.calls.foldl (fun m c => m + 1 + c.resolved_candidates.length) 0)
    0

/-- Modelled from the spec (§4.2): the `tables` option restricts emitted
accesses to the named tables (no restriction when empty). -/
def matchesTables (opts : ReachabilityOptions) (a : DataAccessPoint) : Bool :=
  opts.tables.isEmpty || opts.tables.contains a.table

/-- Modelled from the spec (§4.2): breadth-first traversal over outgoing
resolved `calls` edges.  The queue holds
`(function id, path from origin excluding the function itself, depth)`;
a visited set makes each function visited at most once; depth expansion
is cut at `max_depth`.  Unresolved edges are dead ends when
`include_unresolved` is false; the reached-but-unexpanded markers of the
`true` case carry no data-access results and are not represented.
Sensitive-field aggregation depends on the external upstream sensitivity
classifier and is not modelled (no claim touches it), so
`sensitive_fields` stays empty. -/
def bfsAux (g : CallGraph) (opts : ReachabilityOptions) :
    Nat → List (String × List PathNode × Nat) → List String →
    List ReachableAccess → List ReachableAccess × Nat
  | 0, _, visited, acc => (acc, visited.length)
  | _ + 1, [], visited, acc => (acc, visited.length)
  | fuel + 1, (id, path, depth) :: rest, visited, acc =>
    if visited.contains id then
      bfsAux g opts fuel rest visited acc
    else
      match g.find? id with
      | none => bfsAux g opts fuel rest visited acc
      | some fn =>
        let path2 := path ++ [⟨fn.id, fn.name, fn.file, fn.start_line⟩]
        let found := (fn.data_access.filter (matchesTables opts)).map
          (fun a => ⟨a, path2, depth⟩)
        let canExpand :=
          match opts.max_depth with
          | none => true
          | some d => depth < d
        let next :=
          if canExpand then
            fn.calls.foldr
              (fun c l =>
                if c.resolved then
                  c.resolved_candidates.map (fun t => (t, path2, depth + 1)) ++ l
                else l)
              []
          else []
        bfsAux g opts fuel (rest ++ next) (id :: visited) (acc ++ found)

/-- Modelled from the spec: `reachable_from(origin_id, options)` —
`ReachabilityEngine::get_reachable_data_from_function`.  The binding
consumes a plain result value with no error channel (`lib.rs` 1054), so
an absent origin yields the empty result rather than a failure. -/
def get_reachable_data_from_function (g : CallGraph) (origin_id : String)
    (opts : ReachabilityOptions) : ForwardResult :=
  match g.find? origin_id with
  | none =>
    { origin := ⟨"", 0, none, some origin_id⟩
      reachable_access := []
      tables := []
      sensitive_fields := []
      max_depth := opts.max_depth.getD 0
      functions_traversed := 0 }
  | some fn =>
    let r := bfsAux g opts (bfsFuel g) [(origin_id, [], 0)] [] []
    { origin := ⟨fn.file, fn.start_line, none, some origin_id⟩
      reachable_access := r.1
      tables := (r.1.map (fun a => a.access.table)).dedup
      sensitive_fields := []
      max_depth := opts.max_depth.getD 0
      functions_traversed := r.2 }

/-! ## Inverse reachability engine (spec-modelled, §4.3) -/

/-- One inverse access path (spec §3), consumed in `lib.rs` 1172–1189. -/
structure InverseAccessPath where
  entry_point : String
  path : List PathNode
  access_point : DataAccessPoint
deriving DecidableEq, Repr

/-- The inverse result (spec §3), consumed in `lib.rs` 1169–1192. -/
structure InverseResult where
  targetTable : String
  targetField : Option String
  access_paths : List InverseAccessPath
  entry_points : List String
  total_accessors : Nat
deriving DecidableEq, Repr

/-- Modelled from the spec (§4.3/§9): reverse adjacency derived per
query — the callers of `callee` are the functions with a resolved edge
whose candidates include `callee`. -/
def callersOf (g : CallGraph) (callee : String) : List String :=
  g.functions.filterMap (fun p =>
    if p.2.calls.any (fun c => c.resolved && c.resolved_candidates.contains callee) then
      some p.1
    else none)

/-- Modelled from the spec: fuel bound for the backward walk (at most
`|functions|` callers enqueued per visited function). -/
def inverseFuel (g : CallGraph) : Nat :=
  1 + g.functions.length + g.functions.length * g.functions.length

/-- Modelled from the spec (§4.3): backward walk from an accessor along
the reverse adjacency until an entry point is reached or `max_depth`
hops are exhausted.  Paths are kept in forward order by prepending each
newly discovered caller; a visited set bounds the walk on cyclic
graphs.  Returns the discovered `(entry point, forward path)` pairs. -/
def inverseAux (g : CallGraph) (maxd : Option Nat) :
    Nat → List (String × List PathNode × Nat) → List String →
    List (String × List PathNode) → List (String × List PathNode)
  | 0, _, _, acc => acc
  | _ + 1, [], _, acc => acc
  | fuel + 1, (id, path, depth) :: rest, visited, acc =>
    if visited.contains id then
      inverseAux g maxd fuel rest visited acc
    else
      match g.find? id with
      | none => inverseAux g maxd fuel rest visited acc
      | some fn =>
        let path2 := ⟨fn.id, fn.name, fn.file, fn.start_line⟩ :: path
        if fn.is_entry_point then
          inverseAux g maxd fuel rest (id :: visited) (acc ++ [(id, path2)])
        else
          let canExpand :=
            match maxd with
            | none => true
            | some d => depth < d
          let next :=
            if canExpand then
              (callersOf g id).map (fun c => (c, path2, depth + 1))
            else []
          inverseAux g maxd fuel (rest ++ next) (id :: visited) acc

/-- Modelled from the spec (§4.3): does an access point match the
queried table (and field, when given, against the access's fields)? -/
def matchesTarget (opts : InverseReachabilityOptions) (a : DataAccessPoint) : Bool :=
  a.table == opts.table &&
    (match opts.field with
     | none => true
     | some f => a.fields.contains f)

/-- Modelled from the spec: `paths_to_data(options)` —
`ReachabilityEngine::get_code_paths_to_data`.  Starts from every
function whose `data_access` matches the target, walks backward to
entry points, emits one `access_path` per discovered
(entry point, access point) pair (deduplicated), the deduplicated entry
points, and the count of distinct matching accessor functions. -/
def get_code_paths_to_data (g : CallGraph)
    (opts : InverseReachabilityOptions) : InverseResult :=
  let accessors : List (String × List DataAccessPoint) :=
    g.functions.filterMap (fun p =>
      let matched := p.2.data_access.filter (matchesTarget opts)
      if matched.isEmpty then none else some (p.1, matched))
  let rawPaths : List InverseAccessPath :=
    accessors.foldl
      (fun acc pr =>
        let eps := inverseAux g opts.max_depth (inverseFuel g) [(pr.1, [], 0)] [] []
        acc ++ eps.foldl
          (fun acc2 ep => acc2 ++ pr.2.map (fun a => ⟨ep.1, ep.2, a⟩))
          [])
      []
  let access_paths : List InverseAccessPath :=
    rawPaths.foldl
      (fun acc ap =>
        if acc.any (fun b =>
            b.entry_point == ap.entry_point && b.access_point == ap.access_point) then
          acc
        else acc ++ [ap])
      []
  { targetTable := opts.table
    targetField := opts.field
    access_paths := access_paths
    entry_points := (access_paths.map (fun ap => ap.entry_point)).dedup
    total_accessors := accessors.length }

/-! ## JS-side result types and result conversion (`lib.rs`) -/

/-- `JsCodeLocation` (`lib.rs` 863–868). -/
structure JsCodeLocation where
  file : String
  line : Int
  column : Option Int
  function_id : Option String
deriving DecidableEq, Repr

/-- `JsCallPathNode` (`lib.rs` 872–877). -/
structure JsCallPathNode where
  function_id : String
  function_name : String
  file : String
  line : Int
deriving DecidableEq, Repr

/-- `JsReachableDataAccess` (`lib.rs` 881–891, confidence omitted). -/
structure JsReachableDataAccess where
  table : String
  operation : String
  fields : List String
  file : String
  line : Int
  framework : Option String
  path : List JsCallPathNode
  depth : Int
deriving DecidableEq, Repr

/-- `JsSensitiveFieldAccess` (`lib.rs` 895–904, confidence omitted). -/
structure JsSensitiveFieldAccess where
  field : String
  table : Option String
  sensitivity_type : String
  file : String
  line : Int
  paths : List (List JsCallPathNode)
  access_count : Int
deriving DecidableEq, Repr

/-- `JsReachabilityResult` (`lib.rs` 908–915). -/
structure JsReachabilityResult where
  origin : JsCodeLocation
  reachable_access : List JsReachableDataAccess
  tables : List String
  sensitive_fields : List JsSensitiveFieldAccess
  max_depth : Int
  functions_traversed : Int
deriving DecidableEq, Repr

/-- `JsInverseAccessPath` (`lib.rs` 928–936). -/
structure JsInverseAccessPath where
  entry_point : String
  path : List JsCallPathNode
  access_table : String
  access_operation : String
  access_fields : List String
  access_file : String
  access_line : Int
deriving DecidableEq, Repr

/-- `JsInverseReachabilityResult` (`lib.rs` 940–946). -/
structure JsInverseReachabilityResult where
  target_table : String
  target_field : Option String
  access_paths : List JsInverseAccessPath
  entry_points : List String
  total_accessors : Int
deriving DecidableEq, Repr

/-- `format!("{:?}", sensitivity_type).to_lowercase()`
(`lib.rs` 1088 and 1263). -/
def sensitivityTypeToString : SensitivityType → String
  | .pii => "pii"
  | .credentials => "credentials"
  | .financial => "financial"
  | .health => "health"
  | .unknown => "unknown"

/-- Path-node conversion (`lib.rs` 1076–1081 and the identical maps at
1092–1098, 1174–1179, 1251–1256, 1267–1273, 1320–1325). -/
def convertPathNode (p : PathNode) : JsCallPathNode :=
  { function_id := p.function_id
    function_name := p.function_name
    file := p.file
    line := Int.ofNat p.line }

/-- Forward-result conversion (`lib.rs` 1057–1104, identical in the
SQLite variant at 1232–1279). -/
def convertForwardResult (result : ForwardResult) : JsReachabilityResult :=
  { origin :=
      { file := result.origin.file
        line := Int.ofNat result.origin.line
        column := result.origin.column.map Int.ofNat
        function_id := result.origin.function_id }
    reachable_access := result.reachable_access.map (fun a =>
      { table := a.access.table
        operation := operationToString a.access.operation
        fields := a.access.fields
        file := a.access.file
        line := Int.ofNat a.access.line
        framework := a.access.framework
        path := a.path.map convertPathNode
        depth := Int.ofNat a.depth })
    tables := result.tables
    sensitive_fields := result.sensitive_fields.map (fun s =>
      { field := s.field.field
        table := s.field.table
        sensitivity_type := sensitivityTypeToString s.field.sensitivity_type
        file := s.field.file
        line := Int.ofNat s.field.line
        paths := s.paths.map (fun path => path.map convertPathNode)
        access_count := Int.ofNat s.access_count })
    max_depth := Int.ofNat result.max_depth
    functions_traversed := Int.ofNat result.functions_traversed }

/-- Inverse-result conversion (`lib.rs` 1169–1192, identical in the
SQLite variant at 1315–1338). -/
def convertInverseResult (result : InverseResult) : JsInverseReachabilityResult :=
  { target_table := result.targetTable
    target_field := result.targetField
    access_paths := result.access_paths.map (fun a =>
      { entry_point := a.entry_point
        path := a.path.map convertPathNode
        access_table := a.access_point.table
        access_operation := operationToString a.access_point.operation
        access_fields := a.access_point.fields
        access_file := a.access_point.file
        access_line := Int.ofNat a.access_point.line })
    entry_points := result.entry_points
    total_accessors := Int.ofNat result.total_accessors }

/-! ## The exposed reachability operations (`lib.rs`) -/

/-- `analyze_reachability` (`lib.rs` 997–1105): converts the JS graph,
runs the in-memory engine with the converted options and wraps the
converted result in `Ok`.  The body constructs no error value. -/
def analyze_reachability (graph_input : JsCallGraphInput)
    (function_id : String) (options : JsReachabilityOptions) :
    Except String JsReachabilityResult :=
  let graph := convertGraphInput graph_input
  let rust_options := toRustOptionsMem options
  let result := get_reachable_data_from_function graph function_id rust_options
  .ok (convertForwardResult result)

/-- `analyze_inverse_reachability` (`lib.rs` 1109–1193): same graph
conversion, inverse engine, wrapped in `Ok`; no error value is
constructed. -/
def analyze_inverse_reachability (graph_input : JsCallGraphInput)
    (table : String) (field : Option String) (max_depth : Option Int) :
    Except String JsInverseReachabilityResult :=
  let graph := convertGraphInput graph_input
  let options : InverseReachabilityOptions :=
    { table := table, field := field, max_depth := max_depth.map i64ToU32 }
  .ok (convertInverseResult (get_code_paths_to_data graph options))

/-- Modelled from the spec: `is_available() -> bool` of the Graph Store
contract (§4.4) — the graph exists and is non-empty. -/
def is_available (g : CallGraph) : Bool :=
  !g.functions.isEmpty

/-- `analyze_reachability_sqlite` (`lib.rs` 1206–1280).
`SqliteReachabilityEngine::from_project_root` is drift-core code absent
from the snapshot; its outcome (an engine over the stored graph, or an
I/O/open failure) is the `openResult` parameter.  The store-backed
engine shares the in-memory engine's contract (spec §2), so the query
itself is the modelled engine over the stored graph. -/
def analyze_reachability_sqlite (openResult : Except String CallGraph)
    (function_id : String) (options : JsReachabilityOptions) :
    Except String JsReachabilityResult :=
  match openResult with
  | .error e =>
    .error ("Failed to open call graph database: " ++ e ++
      ". Run build_call_graph() first.")
  | .ok g =>
    if !is_available g then
      .error "Call graph database is empty. Run build_call_graph() first."
    else
      .ok (convertForwardResult
        (get_reachable_data_from_function g function_id
          (toRustOptionsSqlite options)))

/-- `analyze_inverse_reachability_sqlite` (`lib.rs` 1289–1339): the same
two error branches, then the inverse query. -/
def analyze_inverse_reachability_sqlite (openResult : Except String CallGraph)
    (table : String) (field : Option String) (max_depth : Option Int) :
    Except String JsInverseReachabilityResult :=
  match openResult with
  | .error e =>
    .error ("Failed to open call graph database: " ++ e ++
      ". Run build_call_graph() first.")
  | .ok g =>
    if !is_available g then
      .error "Call graph database is empty. Run build_call_graph() first."
    else
      let options : InverseReachabilityOptions :=
        { table := table, field := field, max_depth := max_depth.map i64ToU32 }
      .ok (convertInverseResult (get_code_paths_to_data g options))

/-! ## Graph Store location (`lib.rs`) -/

/-- `PathBuf::join` for the relative literal components used here. -/
def pathJoin (a b : String) : String := a ++ "/" ++ b

/-- Store path computed by `get_call_graph_stats` (`lib.rs` 1365–1370):
`root/.drift/lake/callgraph/callgraph.db`. -/
def get_call_graph_stats_db_path (root : String) : String :=
  pathJoin (pathJoin (pathJoin (pathJoin root ".drift") "lake") "callgraph")
    "callgraph.db"

/-- Store path computed by `get_call_graph_entry_points`
(`lib.rs` 1401–1406). -/
def get_call_graph_entry_points_db_path (root : String) : String :=
  pathJoin (pathJoin (pathJoin (pathJoin root ".drift") "lake") "callgraph")
    "callgraph.db"

/-- Store path computed by `get_call_graph_data_accessors`
(`lib.rs` 1446–1451). -/
def get_call_graph_data_accessors_db_path (root : String) : String :=
  pathJoin (pathJoin (pathJoin (pathJoin root ".drift") "lake") "callgraph")
    "callgraph.db"

/-- Modelled from the spec:
`SqliteReachabilityEngine::from_project_root` (drift-core code absent
from the snapshot) locates the Graph Store under the project root at the
fixed relative path of the persisted-state layout (spec §6), the same
hidden-directory location the store getters address. -/
def from_project_root_db_path (root : String) : String :=
  pathJoin (pathJoin (pathJoin (pathJoin root ".drift") "lake") "callgraph")
    "callgraph.db"

/-! ## Store-backed entry-point / data-accessor listings (`lib.rs`) -/

/-- Modelled from the spec: the Graph Store contract (§4.4) —
`get_function(id)`, `get_entry_points()`, `get_data_accessors()` over
one persisted snapshot. -/
structure CallGraphDb where
  functions : List (String × FunctionNode)
  entry_points : List String
  data_accessors : List String
deriving DecidableEq, Repr

/-- Modelled from the spec: `get_function(id) -> FunctionNode?`. -/
def CallGraphDb.get_function (db : CallGraphDb) (id : String) :
    Option FunctionNode :=
  db.functions.lookup id

/-- `JsEntryPointInfo` (`lib.rs` 1389–1394). -/
structure JsEntryPointInfo where
  id : String
  name : String
  file : String
  line : Int
deriving DecidableEq, Repr

/-- `JsDataAccessorInfo` (`lib.rs` 1433–1439). -/
structure JsDataAccessorInfo where
  id : String
  name : String
  file : String
  line : Int
  tables : List String
deriving DecidableEq, Repr

/-- File extraction from a function id (`lib.rs` 1418 and 1463):
`id.rsplit(':').nth(2).unwrap_or(&id)` — the third-from-last
colon-separated segment, or the whole id when there are fewer than
three segments. -/
def extractFileFromId (id : String) : String :=
  match (splitOnChar ':' id.data).reverse[2]? with
  | some cs => String.mk cs
  | none => id

/-- `get_call_graph_entry_points` (`lib.rs` 1398–1429): for every stored
entry-point id whose function record is found, emit the record's id and
name, the file extracted from the id, and the start line.  Lookup
failures are skipped (`if let Ok(Some(func))`). -/
def get_call_graph_entry_points (db : CallGraphDb) : List JsEntryPointInfo :=
  db.entry_points.filterMap (fun id =>
    (db.get_function id).map (fun func =>
      { id := func.id
        name := func.name
        file := extractFileFromId id
        line := Int.ofNat func.start_line }))

/-- `get_call_graph_data_accessors` (`lib.rs` 1443–1481): like the
entry-point listing, plus the deduplicated tables of the function's
data accesses (a `HashSet` in the source; set semantics modelled by
`dedup`). -/
def get_call_graph_data_accessors (db : CallGraphDb) : List JsDataAccessorInfo :=
  db.data_accessors.filterMap (fun id =>
    (db.get_function id).map (fun func =>
      { id := func.id
        name := func.name
        file := extractFileFromId id
        line := Int.ofNat func.start_line
        tables := (func.data_access.map (fun da => da.table)).dedup }))

/-! ## Parser result types (`parsers/types.rs`)

Translated from `crates/drift-core/src/parsers/types.rs`.  The
`tree_sitter::Tree` handle and the wall-clock `parse_time_us` field are
not modelled (FFI handle / timing); `ParseResultSerialized` in the same
file likewise drops the tree. -/

/-- `Position` (`types.rs` 48–51). -/
structure Position where
  line : Nat
  column : Nat
deriving DecidableEq, Repr

/-- `Range` (`types.rs` 55–58); `end` is a Lean keyword, hence the
quoted field name. -/
structure Range where
  start : Position
  «end» : Position
deriving DecidableEq, Repr

/-- `Range::new` (`types.rs` 61–66). -/
def Range.new (start_line start_col end_line end_col : Nat) : Range :=
  { start := ⟨start_line, start_col⟩, «end» := ⟨end_line, end_col⟩ }

/-- `ParameterInfo` (`types.rs` 96–101). -/
structure ParameterInfo where
  name : String
  type_annotation : Option String
  default_value : Option String
  is_rest : Bool
deriving DecidableEq, Repr

/-- `FunctionInfo` (`types.rs` 71–92). -/
structure FunctionInfo where
  name : String
  qualified_name : Option String
  parameters : List ParameterInfo
  return_type : Option String
  is_exported : Bool
  is_async : Bool
  is_generator : Bool
  range : Range
  decorators : List String
  doc_comment : Option String
deriving DecidableEq, Repr

/-- `Visibility` (`types.rs` 139–143); the Rust variant names are Lean
keywords, shortened here. -/
inductive Visibility where
  | pub
  | priv
  | prot
deriving DecidableEq, Repr

/-- `StructTag` (`types.rs` 131–134). -/
structure StructTag where
  key : String
  value : String
deriving DecidableEq, Repr

/-- `PropertyInfo` (`types.rs` 119–127). -/
structure PropertyInfo where
  name : String
  type_annotation : Option String
  is_static : Bool
  is_readonly : Bool
  visibility : Visibility
  tags : Option (List StructTag)
deriving DecidableEq, Repr

/-- `ClassInfo` (`types.rs` 105–115); `extends` is a Lean keyword,
hence the quoted field name. -/
structure ClassInfo where
  name : String
  «extends» : Option String
  implements : List String
  is_exported : Bool
  is_abstract : Bool
  methods : List FunctionInfo
  properties : List PropertyInfo
  range : Range
  decorators : List String
deriving DecidableEq, Repr

/-- `ImportInfo` (`types.rs` 147–159); `namespace` is a Lean keyword,
hence the quoted field name. -/
structure ImportInfo where
  source : String
  named : List String
  default : Option String
  «namespace» : Option String
  is_type_only : Bool
  range : Range
deriving DecidableEq, Repr

/-- `ExportInfo` (`types.rs` 163–175). -/
structure ExportInfo where
  name : String
  original_name : Option String
  from_source : Option String
  is_type_only : Bool
  is_default : Bool
  range : Range
deriving DecidableEq, Repr

/-- `CallSite` (`types.rs` 179–188). -/
structure CallSite where
  callee : String
  receiver : Option String
  arg_count : Nat
  range : Range
deriving DecidableEq, Repr

/-- `ParseError` (`types.rs` 242–245). -/
structure ParseError where
  message : String
  range : Range
deriving DecidableEq, Repr

/-- `ParseResult` (`types.rs` 191–210, tree and timing omitted). -/
structure ParseResult where
  language : Language
  functions : List FunctionInfo
  classes : List ClassInfo
  imports : List ImportInfo
  exports : List ExportInfo
  calls : List CallSite
  errors : List ParseError
deriving DecidableEq, Repr

/-- `ParseResult::new` (`types.rs` 248–260): all lists empty. -/
def ParseResult.new (language : Language) : ParseResult :=
  { language := language
    functions := []
    classes := []
    imports := []
    exports := []
    calls := []
    errors := [] }

/-! ## Python parser (`parsers/python.rs`)

The tree-sitter layer (`Parser::parse` and the query-driven
`extract_*` passes) is an external C library reached through FFI; it is
modelled as a function producing, per source, either no tree (parser
failure) or the extraction outcome the four `extract_*` passes derive
from the tree.  `PythonParser::parse` never touches `exports` and never
records errors outside the failure branch (the only `errors.push` in
`python.rs` is line 127). -/

/-- Outcome of the four tree-sitter extraction passes of `python.rs`
(`extract_functions`, `extract_classes`, `extract_imports`,
`extract_calls`). -/
structure PyTreeExtraction where
  functions : List FunctionInfo
  classes : List ClassInfo
  imports : List ImportInfo
  calls : List CallSite
deriving DecidableEq, Repr

/-- `PythonParser::parse` (`python.rs` 120–147): when the tree-sitter
parser yields no tree, the result is `ParseResult::new(Python)` with the
single error `"Failed to parse source"` at `Range::new(0,0,0,0)`;
otherwise the extraction passes fill functions, classes, imports and
calls, leaving `exports` and `errors` empty. -/
def PythonParser.parse (tsParse : String → Option PyTreeExtraction)
    (source : String) : ParseResult :=
  match tsParse source with
  | none =>
    { ParseResult.new .python with
        errors := [{ message := "Failed to parse source", range := Range.new 0 0 0 0 }] }
  | some t =>
    { language := .python
      functions := t.functions
      classes := t.classes
      imports := t.imports
      exports := []
      calls := t.calls
      errors := [] }

/-! ## Supporting lemmas -/

theorem string_append_assoc (a b c : String) : (a ++ b) ++ c = a ++ (b ++ c) := by
  obtain ⟨as⟩ := a
  obtain ⟨bs⟩ := b
  obtain ⟨cs⟩ := c
  show String.mk ((as ++ bs) ++ cs) = String.mk (as ++ (bs ++ cs))
  rw [List.append_assoc]

theorem parseOperation_of_unknown (s : String) (h1 : s ≠ "write")
    (h2 : s ≠ "delete") : parseOperation s = .read := by
  unfold parseOperation
  split
  · exact absurd rfl h1
  · exact absurd rfl h2
  · rfl

/-! ## Claim theorems -/

/-- C1 (counterexample): on the empty call graph, whose function map
does not contain `"missing"`, `analyze_reachability` returns an
ordinary success result rather than failing with `NotFound`. -/
theorem analyze_reachability_notfound_cex :
    (convertGraphInput ⟨[], [], []⟩).find? "missing" = none ∧
    ∃ r, analyze_reachability ⟨[], [], []⟩ "missing" ⟨none, none, none, none⟩ =
      .ok r :=
  ⟨rfl, _, rfl⟩

/-- C1 (amended): `analyze_reachability` never fails — for every call
graph input, every function id (present or absent) and every options
record it returns an ordinary success result; the binding constructs no
error value. -/
theorem analyze_reachability_total_ok
    (graph_input : JsCallGraphInput) (function_id : String)
    (options : JsReachabilityOptions) :
    ∃ r, analyze_reachability graph_input function_id options = .ok r :=
  ⟨_, rfl⟩

/-- C4: `get_call_graph_stats`, `get_call_graph_entry_points`,
`get_call_graph_data_accessors` and the engines opened via
`from_project_root` all locate the Graph Store at the same single fixed
relative path `root/.drift/lake/callgraph/callgraph.db`. -/
theorem store_db_path_fixed (root : String) :
    get_call_graph_stats_db_path root =
      root ++ "/.drift/lake/callgraph/callgraph.db" ∧
    get_call_graph_entry_points_db_path root = get_call_graph_stats_db_path root ∧
    get_call_graph_data_accessors_db_path root = get_call_graph_stats_db_path root ∧
    from_project_root_db_path root = get_call_graph_stats_db_path root := by
  refine ⟨?_, rfl, rfl, rfl⟩
  simp only [get_call_graph_stats_db_path, pathJoin, string_append_assoc]
  rfl

/-- C5: with every option field omitted, both the in-memory and the
store-backed option conversions produce
`include_unresolved = false`, `sensitive_only = false`, empty `tables`
and absent `max_depth`, and the in-memory query runs the engine with
exactly those defaults. -/
theorem reachability_default_options :
    toRustOptionsMem ⟨none, none, none, none⟩ =
      ⟨none, false, [], false⟩ ∧
    toRustOptionsSqlite ⟨none, none, none, none⟩ =
      ⟨none, false, [], false⟩ ∧
    ∀ (g : JsCallGraphInput) (fid : String),
      analyze_reachability g fid ⟨none, none, none, none⟩ =
        .ok (convertForwardResult
          (get_reachable_data_from_function (convertGraphInput g) fid
            ⟨none, false, [], false⟩)) :=
  ⟨rfl, rfl, fun _ _ => rfl⟩

/-- C6: the data-access operation domain is exactly
`{Read, Write, Delete}`, and parsing the serialized string of an
operation yields the operation again. -/
theorem operation_roundtrip (op : ReachDataOperation) :
    parseOperation (operationToString op) = op ∧
    (op = .read ∨ op = .write ∨ op = .delete) := by
  cases op with
  | read => exact ⟨rfl, Or.inl rfl⟩
  | write => exact ⟨rfl, Or.inr (Or.inl rfl)⟩
  | delete => exact ⟨rfl, Or.inr (Or.inr rfl)⟩

/-- C8: when the tree-sitter parser produces no tree,
`PythonParser::parse` still returns a `ParseResult` recording the
failure in `errors`, with empty functions, classes, imports, exports and
calls — no fatal error. -/
theorem python_parse_failure_nonfatal
    (tsParse : String → Option PyTreeExtraction) (source : String)
    (h : tsParse source = none) :
    PythonParser.parse tsParse source =
      { language := .python
        functions := []
        classes := []
        imports := []
        exports := []
        calls := []
        errors := [{ message := "Failed to parse source"
                     range := Range.new 0 0 0 0 }] } := by
  unfold PythonParser.parse
  rw [h]
  rfl

theorem python_parse_failure_nonfatal_witness :
    PythonParser.parse (fun _ => none) "def f(:" =
      { language := .python
        functions := []
        classes := []
        imports := []
        exports := []
        calls := []
        errors := [{ message := "Failed to parse source"
                     range := Range.new 0 0 0 0 }] } :=
  python_parse_failure_nonfatal (fun _ => none) "def f(:" rfl

/-- C9: a data-access operation string other than `"write"` and
`"delete"` is silently interpreted as `Read` by the graph conversion
shared by `analyze_reachability` and `analyze_inverse_reachability`,
and neither function rejects such input (both always succeed). -/
theorem unknown_operation_maps_to_read
    (a : JsCallGraphDataAccess) (h1 : a.operation ≠ "write")
    (h2 : a.operation ≠ "delete") :
    (convertDataAccess a).operation = .read ∧
    (∀ (g : JsCallGraphInput) (fid : String) (o : JsReachabilityOptions),
      ∃ r, analyze_reachability g fid o = .ok r) ∧
    (∀ (g : JsCallGraphInput) (t : String) (f : Option String)
        (d : Option Int),
      ∃ r, analyze_inverse_reachability g t f d = .ok r) :=
  ⟨parseOperation_of_unknown a.operation h1 h2,
   fun _ _ _ => ⟨_, rfl⟩,
   fun _ _ _ _ => ⟨_, rfl⟩⟩

theorem unknown_operation_maps_to_read_witness :
    (convertDataAccess
      { table := "users", operation := "Write", fields := ["email"]
        file := "a.py", line := 7, framework := none }).operation = .read :=
  (unknown_operation_maps_to_read
    { table := "users", operation := "Write", fields := ["email"]
      file := "a.py", line := 7, framework := none }
    (by decide) (by decide)).1

/-! ## Supporting lemmas for id / path splitting -/

theorem splitOnChar_append_cons_last {c : Char} (xs : List Char)
    {ys : List Char} (h : c ∉ ys) :
    ∃ l, splitOnChar c (xs ++ c :: ys) = l ++ [ys] ∧ l ≠ [] := by
  induction xs with
  | nil =>
    refine ⟨[[]], ?_, by simp⟩
    simp [splitOnChar, splitOnChar_of_not_mem h]
  | cons x xs ih =>
    obtain ⟨l, hl, hne⟩ := ih
    by_cases hx : x = c
    · refine ⟨[] :: l, ?_, by simp⟩
      simp only [List.cons_append, splitOnChar, if_pos hx, List.append_eq, hl]
    · obtain ⟨m, ms, rfl⟩ : ∃ m ms, l = m :: ms := by
        cases l with
        | nil => exact absurd rfl hne
        | cons m ms => exact ⟨m, ms, rfl⟩
      refine ⟨(x :: m) :: ms, ?_, by simp⟩
      simp only [List.cons_append, splitOnChar, if_neg hx, List.append_eq, hl]

/-- Example function node stored under an id whose file component
contains a colon. -/
def exFnC3 : FunctionNode :=
  { id := "a:b:f:3", name := "f", qualified_name := "f", file := "a:b"
    start_line := 3, end_line := 4, calls := [], data_access := []
    is_entry_point := true }

/-- Example store whose single function lives in file `"a:b"`. -/
def exDbC3 : CallGraphDb :=
  { functions := [("a:b:f:3", exFnC3)]
    entry_points := ["a:b:f:3"]
    data_accessors := ["a:b:f:3"] }

/-- C3 (counterexample): for the stored function with file `"a:b"` and
id `"a:b:f:3"` (file:name:line), `get_call_graph_entry_points` returns
file `"b"` — the third-from-last colon segment — not the function's
source file path `"a:b"`. -/
theorem entry_point_file_cex :
    exFnC3.file = "a:b" ∧
    (get_call_graph_entry_points exDbC3).map (fun e => e.file) = ["b"] ∧
    ("b" : String) ≠ "a:b" := by
  refine ⟨rfl, ?_, by decide⟩
  rfl

/-- C3 (amended): when the id components carry no `':'` of their own,
the file field extracted by `get_call_graph_entry_points` /
`get_call_graph_data_accessors` from a composite id
`file:name:line` is exactly the source-file-path component. -/
theorem entry_point_file_from_id (file name line : String)
    (hf : ':' ∉ file.data) (hn : ':' ∉ name.data) (hl : ':' ∉ line.data) :
    extractFileFromId (file ++ ":" ++ name ++ ":" ++ line) = file := by
  have hdata : (file ++ ":" ++ name ++ ":" ++ line).data
      = file.data ++ ':' :: (name.data ++ ':' :: line.data) := by
    show (((file.data ++ [':']) ++ name.data) ++ [':']) ++ line.data = _
    simp [List.append_assoc]
  unfold extractFileFromId
  rw [hdata, splitOnChar_append_cons hf, splitOnChar_append_cons hn,
    splitOnChar_of_not_mem hl]
  rfl

theorem entry_point_file_from_id_witness :
    extractFileFromId ("src/a.py" ++ ":" ++ "main" ++ ":" ++ "3") = "src/a.py" :=
  entry_point_file_from_id "src/a.py" "main" "3"
    (by decide) (by decide) (by decide)

/-- Example function node for the store-backed engine examples. -/
def exFnC2 : FunctionNode :=
  { id := "a.py:f:1", name := "f", qualified_name := "f", file := "a.py"
    start_line := 1, end_line := 2, calls := [], data_access := []
    is_entry_point := true }

/-- Example non-empty stored graph. -/
def exGraphC2 : CallGraph :=
  { functions := [("a.py:f:1", exFnC2)]
    entry_points := ["a.py:f:1"]
    data_accessors := [] }

/-- C2 (counterexample): on an available (non-empty) store, a function
id that does not exist yields an ordinary success result from
`analyze_reachability_sqlite` — there is no third, id-not-found error. -/
theorem sqlite_absent_id_cex :
    is_available exGraphC2 = true ∧
    exGraphC2.find? "missing" = none ∧
    ∃ r, analyze_reachability_sqlite (.ok exGraphC2) "missing"
      ⟨none, none, none, none⟩ = .ok r :=
  ⟨rfl, rfl, _, rfl⟩

/-- C2 (amended): the store-backed reachability operations distinguish
exactly two user-visible errors — an open failure (one message template
for missing and corrupt stores alike, advising to run the build first)
and an empty store (a distinct message, same advice) — while a function
id that does not exist in an available store is not an error: the query
returns an ordinary success result. -/
theorem sqlite_engines_error_cases :
    (∀ (e fid : String) (o : JsReachabilityOptions),
      analyze_reachability_sqlite (.error e) fid o =
        .error ("Failed to open call graph database: " ++ e ++
          ". Run build_call_graph() first.")) ∧
    (∀ (e t : String) (f : Option String) (d : Option Int),
      analyze_inverse_reachability_sqlite (.error e) t f d =
        .error ("Failed to open call graph database: " ++ e ++
          ". Run build_call_graph() first.")) ∧
    (∀ (g : CallGraph) (fid : String) (o : JsReachabilityOptions),
      is_available g = false →
      analyze_reachability_sqlite (.ok g) fid o =
        .error "Call graph database is empty. Run build_call_graph() first.") ∧
    (∀ (g : CallGraph) (t : String) (f : Option String) (d : Option Int),
      is_available g = false →
      analyze_inverse_reachability_sqlite (.ok g) t f d =
        .error "Call graph database is empty. Run build_call_graph() first.") ∧
    (∀ (g : CallGraph) (fid : String) (o : JsReachabilityOptions),
      is_available g = true →
      ∃ r, analyze_reachability_sqlite (.ok g) fid o = .ok r) ∧
    (∀ (g : CallGraph) (t : String) (f : Option String) (d : Option Int),
      is_available g = true →
      ∃ r, analyze_inverse_reachability_sqlite (.ok g) t f d = .ok r) := by
  refine ⟨fun _ _ _ => rfl, fun _ _ _ _ => rfl, ?_, ?_, ?_, ?_⟩
  · intro g fid o h
    simp [analyze_reachability_sqlite, h]
  · intro g t f d h
    simp [analyze_inverse_reachability_sqlite, h]
  · intro g fid o h
    exact ⟨convertForwardResult
      (get_reachable_data_from_function g fid (toRustOptionsSqlite o)),
      by simp [analyze_reachability_sqlite, h]⟩
  · intro g t f d h
    exact ⟨convertInverseResult
      (get_code_paths_to_data g
        { table := t, field := f, max_depth := d.map i64ToU32 }),
      by simp [analyze_inverse_reachability_sqlite, h]⟩

theorem sqlite_engines_error_cases_witness :
    ∃ r, analyze_reachability_sqlite (.ok exGraphC2) "a.py:f:1"
      ⟨none, none, none, none⟩ = .ok r :=
  sqlite_engines_error_cases.2.2.2.2.1 exGraphC2 "a.py:f:1"
    ⟨none, none, none, none⟩ rfl

/-- C10 (counterexample): the path `"h"` contains no `'.'` at all, yet
`Language::from_path` does not return `None` — the whole path is taken
as the extension and maps to C. -/
theorem from_path_dotless_cex :
    Language.from_path "h" = some Language.c ∧ '.' ∉ ("h" : String).data := by
  constructor
  · decide
  · decide

/-- C10 (amended): `from_path` applies `from_extension` to the text
after the last `'.'`; a path with no `'.'` is treated as being its own
extension (so it maps to a language exactly when the whole path,
lowercased, is a supported extension), and `from_extension` matching is
case-insensitive over the supported table. -/
theorem from_path_uses_last_dot_segment :
    (∀ stem ext : String, '.' ∉ ext.data →
      Language.from_path (stem ++ "." ++ ext) = Language.from_extension ext) ∧
    (∀ p : String, '.' ∉ p.data →
      Language.from_path p = Language.from_extension p) ∧
    Language.from_extension "py" = some Language.python ∧
    Language.from_extension "PY" = some Language.python ∧
    Language.from_extension "txt" = none := by
  refine ⟨?_, ?_, by decide, by decide, by decide⟩
  · intro stem ext h
    obtain ⟨l, hl, -⟩ := splitOnChar_append_cons_last stem.data h
    have hdata : (stem ++ "." ++ ext).data = stem.data ++ '.' :: ext.data := by
      show (stem.data ++ ['.']) ++ ext.data = _
      simp [List.append_assoc]
    unfold Language.from_path
    rw [hdata, hl]
    simp [List.reverse_append]
  · intro p h
    unfold Language.from_path
    rw [splitOnChar_of_not_mem h]
    rfl

theorem from_path_uses_last_dot_segment_witness :
    Language.from_path ("main" ++ "." ++ "py") = Language.from_extension "py" :=
  from_path_uses_last_dot_segment.1 "main" "py" (by decide)

end Drift
